import Mathlib

/-!
Verification of the guidelinely client's request-normalization and caching
layer (src/guidelinely/client.py, src/guidelinely/cache.py,
src/guidelinely/models.py).

Modelling conventions:

* Python JSON-like values (the cache-key dicts, request bodies and response
  payloads) are embedded as `JVal`.  Python dicts preserve key-insertion
  order and `diskcache` identifies non-primitive keys by their pickled
  bytes, which serialize dict items in insertion order; pickling is
  invertible, so two dict keys address the same `diskcache` entry exactly
  when their ordered item sequences coincide.  `JVal.obj` therefore keeps
  the ordered field list, and cache-key identity is structural equality of
  `JVal`.
* Python truthiness (`if context:`, `if cached_response:`, `x or y`) is
  embedded as `jTruthy`: `None`, `False`, `0`, `""`, `[]` and `{}` are
  falsy, everything else truthy.
* Effects (cache reads, cache writes, HTTP POSTs) are recorded in an
  explicit trace; the remote service and a possible storage fault on the
  cache read are oracles passed to each call.
-/

mutual

/-- A Python JSON-like value: `None`, bool, int, str, list or dict.
Dicts keep their fields in key-insertion order (see module comment). -/
inductive JVal where
  | null
  | bool (b : Bool)
  | int (n : Int)
  | str (s : String)
  | arr (l : JArr)
  | obj (l : JObj)
deriving DecidableEq, Repr

/-- A list of `JVal`s (spine of `JVal.arr`). -/
inductive JArr where
  | nil
  | cons (hd : JVal) (tl : JArr)
deriving DecidableEq, Repr

/-- Ordered field list of a Python dict (spine of `JVal.obj`). -/
inductive JObj where
  | nil
  | cons (k : String) (v : JVal) (tl : JObj)
deriving DecidableEq, Repr

end

/-- `dict.get k` on a Python dict: value of the first field named `k`,
`none` when absent. -/
def JObj.get : JObj → String → Option JVal
  | .nil, _ => none
  | .cons k v tl, key => if k = key then some v else tl.get key

/-- Whether a dict has no fields (Python `{}` is falsy). -/
def JObj.isEmpty : JObj → Bool
  | .nil => true
  | .cons _ _ _ => false

/-- Whether a list has no elements (Python `[]` is falsy). -/
def JArr.isEmpty : JArr → Bool
  | .nil => true
  | .cons _ _ => false

/-- Python truthiness of a JSON-like value. -/
def jTruthy : JVal → Bool
  | .null => false
  | .bool b => b
  | .int n => n != 0
  | .str s => s ≠ ""
  | .arr l => !l.isEmpty
  | .obj l => !l.isEmpty

/-- Python `a or b` restricted to JSON-like values. -/
def jOr (a b : JVal) : JVal :=
  if jTruthy a then a else b

/-- One `Context` mapping as the caller passes it: environmental-variable
name to value-with-unit string, in key-insertion order. -/
abbrev Ctx := List (String × String)

/-- The `context` argument of the calculate functions:
`Union[dict[str, str], list[dict[str, str]]]` — a single mapping or a
list of mappings. -/
inductive CtxInput where
  | single (d : Ctx)
  | many (l : List Ctx)
deriving DecidableEq

/-- Embed one `Context` mapping as a Python dict value. -/
def ctxObj : Ctx → JObj
  | [] => .nil
  | (k, v) :: tl => .cons k (.str v) (ctxObj tl)

/-- Embed a list of `Context` mappings as a Python list value. -/
def ctxListArr : List Ctx → JArr
  | [] => .nil
  | d :: tl => .cons (.obj (ctxObj d)) (ctxListArr tl)

/-- The `context` argument as the Python value stored in the cache-key
dict (`None`, a dict, or a list of dicts). -/
def ctxJVal : Option CtxInput → JVal
  | none => .null
  | some (.single d) => .obj (ctxObj d)
  | some (.many l) => .arr (ctxListArr l)

/-- Python truthiness of the `context` argument (`if context:`):
`None`, `{}` and `[]` are falsy. -/
def ctxTruthy : Option CtxInput → Bool
  | none => false
  | some (.single d) => !(ctxObj d).isEmpty
  | some (.many l) => !(ctxListArr l).isEmpty

/-- One element of `calculate_batch`'s `parameters` list:
`Union[str, dict[str, Any]]` — a bare name or a raw dict (typically
`name` plus `target_unit`). -/
inductive BatchParam where
  | pstr (s : String)
  | pobj (d : JObj)
deriving DecidableEq

/-- Embed a batch parameter as the Python value it is. -/
def batchParamJVal : BatchParam → JVal
  | .pstr s => .str s
  | .pobj d => .obj d

/-- Embed the `parameters` list as a Python list value. -/
def batchParamsArr : List BatchParam → JArr
  | [] => .nil
  | p :: tl => .cons (batchParamJVal p) (batchParamsArr tl)

/-- `Optional[str]` as a Python value (`None` or a str). -/
def optStrJVal : Option String → JVal
  | none => .null
  | some s => .str s

/-- The exceptions the embedded operations can surface.
`valueError` is Python `ValueError`; `apiError` is `GuidelinelyAPIError`
(message and status code, as constructed in `_handle_error` and observed
in tests via `.status_code`); `timeoutError` is `GuidelinelyTimeoutError`;
`storageError` is an exception escaping the `diskcache` backend;
`jsonDecodeError` models `response.json()` raising on the success path;
`pydanticError` models `CalculationResponse(**data)` raising. -/
inductive GError where
  | valueError (msg : String)
  | apiError (message : JVal) (statusCode : Nat)
  | timeoutError (msg : String)
  | storageError (msg : String)
  | jsonDecodeError
  | pydanticError
deriving DecidableEq

/-- models.py `CalculationResponse`: `results` (passthrough guideline
records), `context` (dict), `total_count`.  Per-record validation of
`GuidelineResponse` fields is structural passthrough (spec §4.4: "a
structural mapping only") and is not further decomposed here. -/
structure CalculationResponse where
  results : JArr
  context : JObj
  total_count : Int
deriving DecidableEq

/-- `CalculationResponse(**data)`: requires `results` (a list),
`context` (a dict) and `total_count` (an int) fields; extra fields are
ignored (pydantic default, exercised by the repository's test mocks). -/
def parseCalcResponse (data : JVal) : Except GError CalculationResponse :=
  match data with
  | .obj fields =>
    match fields.get "results", fields.get "context", fields.get "total_count" with
    | some (.arr rs), some (.obj c), some (.int n) => .ok ⟨rs, c, n⟩
    | _, _, _ => .error .pydanticError
  | _ => .error .pydanticError

/-- API base URL (client.py). -/
def GUIDELINELY_API_BASE : String := "https://guidelines.1681248.com/api/v1"

/-- User-Agent header value (client.py). -/
def USER_AGENT : String := "guidelinely-python/0.1.0"

/-- An observable side effect of one client call, in order of occurrence:
a `diskcache` lookup, a `diskcache` write (with its `expire` seconds), or
an HTTP POST with its body and outgoing headers. -/
inductive Effect where
  | cacheGet (key : JVal)
  | cacheSet (key : JVal) (value : JVal) (expire : Nat)
  | httpPost (url : String) (body : JVal) (headers : List (String × String))
deriving DecidableEq

/-- The durable contents of the `diskcache` store: pickled-key to value,
most recent write first (`storeGet` reads the first match, so a later
`set` overwrites an earlier one for the same key). -/
abbrev CacheStore := List (JVal × JVal)

/-- Raw `cache.get`: the stored value for the key, or `none` if absent. -/
def storeGet : CacheStore → JVal → Option JVal
  | [], _ => none
  | (k, v) :: rest, key => if k = key then some v else storeGet rest key

/-- Raw `cache.set`: overwrite the value for the key. -/
def storeSet (s : CacheStore) (k v : JVal) : CacheStore :=
  (k, v) :: s

/-- The cache as a call sees it: the durable store plus an oracle saying
whether the backing storage raises on this call's read (`cache.get` is
backed by SQLite on disk; permissions or corruption faults surface as
exceptions, which `get_cached` does not catch). -/
structure CacheEnv where
  store : CacheStore
  getFault : Option String
deriving DecidableEq

/-- cache.py `get_cached`: `cache.get(key_data)`, mapping a stored `None`
(and an absent key) to `None`.  There is no exception handler, so a
storage fault propagates to the caller as an error. -/
def get_cached (env : CacheEnv) (keyData : JVal) : Except String (Option JVal) :=
  match env.getFault with
  | some msg => .error msg
  | none =>
    match storeGet env.store keyData with
    | none => .ok none
    | some v => if v = .null then .ok none else .ok (some v)

/-- cache.py `set_cached`: `cache.set(key_data, value, expire=ttl)` with
`ttl: int = 24 * 3600` as the default. -/
def set_cached (keyData value : JVal) (ttl : Nat := 24 * 3600) : Effect :=
  .cacheSet keyData value ttl

/-- Modelled from the spec: `guidelinely.auth.get_api_key` is not under
src/ (only client.py imports it); per client.py's docstring, "If None,
will use GUIDELINELY_API_KEY environment variable".  `envKey` stands for
that ambient setting. -/
def get_api_key (apiKey envKey : Option String) : Option String :=
  match apiKey with
  | some k => some k
  | none => envKey

/-- Outgoing headers of the POST: User-Agent always; `X-API-KEY` added
when the resolved key is truthy (`if key:`). -/
def mkHeaders (key : Option String) : List (String × String) :=
  match key with
  | some k =>
    if k = "" then [("User-Agent", USER_AGENT)]
    else [("User-Agent", USER_AGENT), ("X-API-KEY", k)]
  | none => [("User-Agent", USER_AGENT)]

/-- One remote exchange as the oracle supplies it: the request timed out,
or the service replied with a status code and a body (`none` for a body
`response.json()` cannot parse). -/
inductive RemoteResult where
  | timeout (msg : String)
  | reply (status : Nat) (body : Option JVal)
deriving DecidableEq

/-- `_handle_error`'s message extraction:
`error_body.get("detail") or error_body.get("message") or "API request
failed"`, with any exception (unparseable body, body not a dict) mapped
to the fallback string. -/
def extractErrorMessage (body : Option JVal) : JVal :=
  match body with
  | some (.obj fields) =>
    jOr (jOr ((fields.get "detail").getD .null) ((fields.get "message").getD .null))
      (.str "API request failed")
  | _ => .str "API request failed"

/-- client.py `_handle_error`: raise `GuidelinelyAPIError` with the
extracted message and the response's status code. -/
def handle_error (status : Nat) (body : Option JVal) : GError :=
  .apiError (extractErrorMessage body) status

/-- Python truthiness of `Optional[dict]` (`if cached_response:`). -/
def truthyOpt : Option JVal → Bool
  | none => false
  | some v => jTruthy v

deriving instance DecidableEq for Except

/-- Outcome of one embedded client call: the returned value or raised
exception, the ordered effect trace, and the cache store afterwards. -/
structure CallResult where
  result : Except GError CalculationResponse
  trace : List Effect
  store : CacheStore
deriving DecidableEq

/-- The cache-key dict built in `calculate_guidelines` (client.py lines
358-364): endpoint, parameter, media, context, target_unit — and no
credential. -/
def calculateCacheKey (parameter media : String) (context : Option CtxInput)
    (targetUnit : Option String) : JVal :=
  .obj (.cons "endpoint" (.str "calculate")
    (.cons "parameter" (.str parameter)
    (.cons "media" (.str media)
    (.cons "context" (ctxJVal context)
    (.cons "target_unit" (optStrJVal targetUnit) .nil)))))

/-- The request body built in `calculate_guidelines` (client.py lines
372-380): parameter and media always; context and target_unit only when
truthy. -/
def calculateBody (parameter media : String) (context : Option CtxInput)
    (targetUnit : Option String) : JVal :=
  .obj (.cons "parameter" (.str parameter)
    (.cons "media" (.str media)
    (let rest := match targetUnit with
      | some s => if s = "" then JObj.nil else .cons "target_unit" (.str s) .nil
      | none => JObj.nil
     if ctxTruthy context then .cons "context" (ctxJVal context) rest else rest)))

/-- client.py `calculate_guidelines`: resolve the key, build the cache
key, try the cache (truthy payload ⇒ return the parsed cached payload),
otherwise POST to `/calculate`, handle non-200, cache the payload with
the default TTL and return it parsed. -/
def calculate_guidelines (parameter media : String) (context : Option CtxInput)
    (targetUnit : Option String) (apiKey envKey : Option String)
    (env : CacheEnv) (remote : RemoteResult) : CallResult :=
  let key := get_api_key apiKey envKey
  let cacheKey := calculateCacheKey parameter media context targetUnit
  match get_cached env cacheKey with
  | .error msg => ⟨.error (.storageError msg), [.cacheGet cacheKey], env.store⟩
  | .ok cachedResponse =>
    if truthyOpt cachedResponse then
      ⟨parseCalcResponse (cachedResponse.getD .null), [.cacheGet cacheKey], env.store⟩
    else
      let body := calculateBody parameter media context targetUnit
      let headers := mkHeaders key
      let url := GUIDELINELY_API_BASE ++ "/calculate"
      match remote with
      | .timeout msg =>
        ⟨.error (.timeoutError ("Request timed out: " ++ msg)),
         [.cacheGet cacheKey, .httpPost url body headers], env.store⟩
      | .reply status respBody =>
        if status ≠ 200 then
          ⟨.error (handle_error status respBody),
           [.cacheGet cacheKey, .httpPost url body headers], env.store⟩
        else
          match respBody with
          | none =>
            ⟨.error .jsonDecodeError,
             [.cacheGet cacheKey, .httpPost url body headers], env.store⟩
          | some data =>
            ⟨parseCalcResponse data,
             [.cacheGet cacheKey, .httpPost url body headers, set_cached cacheKey data],
             storeSet env.store cacheKey data⟩

/-- The cache-key dict built in `calculate_batch` (client.py lines
474-479): endpoint, parameters, media, context — and no credential. -/
def batchCacheKey (parameters : List BatchParam) (media : String)
    (context : Option CtxInput) : JVal :=
  .obj (.cons "endpoint" (.str "calculate/batch")
    (.cons "parameters" (.arr (batchParamsArr parameters))
    (.cons "media" (.str media)
    (.cons "context" (ctxJVal context) .nil))))

/-- The request body built in `calculate_batch` (client.py lines
487-493): parameters and media always; context only when truthy. -/
def batchBody (parameters : List BatchParam) (media : String)
    (context : Option CtxInput) : JVal :=
  .obj (.cons "parameters" (.arr (batchParamsArr parameters))
    (.cons "media" (.str media)
    (if ctxTruthy context then .cons "context" (ctxJVal context) .nil else .nil)))

/-- client.py `calculate_batch`: reject more than 50 parameters first
(before any cache or network activity), then proceed exactly as
`calculate_guidelines` does against `/calculate/batch`. -/
def calculate_batch (parameters : List BatchParam) (media : String)
    (context : Option CtxInput) (apiKey envKey : Option String)
    (env : CacheEnv) (remote : RemoteResult) : CallResult :=
  if parameters.length > 50 then
    ⟨.error (.valueError "Maximum 50 parameters per batch request"), [], env.store⟩
  else
    let key := get_api_key apiKey envKey
    let cacheKey := batchCacheKey parameters media context
    match get_cached env cacheKey with
    | .error msg => ⟨.error (.storageError msg), [.cacheGet cacheKey], env.store⟩
    | .ok cachedResponse =>
      if truthyOpt cachedResponse then
        ⟨parseCalcResponse (cachedResponse.getD .null), [.cacheGet cacheKey], env.store⟩
      else
        let body := batchBody parameters media context
        let headers := mkHeaders key
        let url := GUIDELINELY_API_BASE ++ "/calculate/batch"
        match remote with
        | .timeout msg =>
          ⟨.error (.timeoutError ("Request timed out: " ++ msg)),
           [.cacheGet cacheKey, .httpPost url body headers], env.store⟩
        | .reply status respBody =>
          if status ≠ 200 then
            ⟨.error (handle_error status respBody),
             [.cacheGet cacheKey, .httpPost url body headers], env.store⟩
          else
            match respBody with
            | none =>
              ⟨.error .jsonDecodeError,
               [.cacheGet cacheKey, .httpPost url body headers], env.store⟩
            | some data =>
              ⟨parseCalcResponse data,
               [.cacheGet cacheKey, .httpPost url body headers, set_cached cacheKey data],
               storeSet env.store cacheKey data⟩

/-- Whether an effect is an HTTP POST (a remote invocation). -/
def isHttpPost : Effect → Bool
  | .httpPost _ _ _ => true
  | _ => false

/-- Whether an effect is a cache write. -/
def isCacheSet : Effect → Bool
  | .cacheSet _ _ _ => true
  | _ => false

/-- Number of remote invocations in a trace. -/
def postCount (trace : List Effect) : Nat :=
  (trace.filter isHttpPost).length

/-- The cache-facing effects of a trace (everything except HTTP posts):
what a shared cache storage could ever observe of the call. -/
def cacheEffects (trace : List Effect) : List Effect :=
  trace.filter (fun e => !isHttpPost e)

/-- The outcome of the shared miss path of both calculate functions:
POST, then handle the remote result, caching the payload on success.
Used to state the scenario lemmas below. -/
def missOutcome (url : String) (cacheKey body : JVal)
    (headers : List (String × String)) (store : CacheStore)
    (remote : RemoteResult) : CallResult :=
  match remote with
  | .timeout msg =>
    ⟨.error (.timeoutError ("Request timed out: " ++ msg)),
     [.cacheGet cacheKey, .httpPost url body headers], store⟩
  | .reply status respBody =>
    if status ≠ 200 then
      ⟨.error (handle_error status respBody),
       [.cacheGet cacheKey, .httpPost url body headers], store⟩
    else
      match respBody with
      | none =>
        ⟨.error .jsonDecodeError,
         [.cacheGet cacheKey, .httpPost url body headers], store⟩
      | some data =>
        ⟨parseCalcResponse data,
         [.cacheGet cacheKey, .httpPost url body headers, set_cached cacheKey data],
         storeSet store cacheKey data⟩


/-! Concrete fixtures used by witnesses and counterexamples. -/

/-- A two-entry water context in one insertion order. -/
def ctxPHFirst : Ctx := [("pH", "7.0 1"), ("hardness", "100 mg/L")]

/-- The same two-entry context with the opposite insertion order. -/
def ctxHardnessFirst : Ctx := [("hardness", "100 mg/L"), ("pH", "7.0 1")]

/-- A minimal well-formed payload of the calculation endpoints. -/
def goodPayload : JVal :=
  .obj (.cons "results" (.arr .nil)
    (.cons "context" (.obj (.cons "pH" (.str "7.0 1") .nil))
    (.cons "total_count" (.int 0) .nil)))

/-- The `CalculationResponse` that `goodPayload` parses to. -/
def goodResponse : CalculationResponse :=
  ⟨.nil, .cons "pH" (.str "7.0 1") .nil, 0⟩

/-- An empty cache with no storage fault. -/
def emptyEnv : CacheEnv := ⟨[], none⟩

/-! Helper lemmas about the embedded definitions. -/

/-- Embedding a `Context` mapping as a dict value is injective: the
ordered item list is fully recoverable from the `JObj`. -/
theorem ctxObj_inj : ∀ c1 c2 : List (String × String), ctxObj c1 = ctxObj c2 → c1 = c2 := by
  intro c1
  induction c1 with
  | nil =>
    intro c2 h
    cases c2 with
    | nil => rfl
    | cons p tl => obtain ⟨k, v⟩ := p; simp [ctxObj] at h
  | cons p tl ih =>
    obtain ⟨k, v⟩ := p
    intro c2 h
    cases c2 with
    | nil => simp [ctxObj] at h
    | cons q tl2 =>
      obtain ⟨k2, v2⟩ := q
      simp only [ctxObj, JObj.cons.injEq, JVal.str.injEq] at h
      obtain ⟨hk, hv, ht⟩ := h
      simp [hk, hv, ih tl2 ht]

/-- Embedding a list of `Context` mappings is injective. -/
theorem ctxListArr_inj : ∀ l1 l2 : List Ctx, ctxListArr l1 = ctxListArr l2 → l1 = l2 := by
  intro l1
  induction l1 with
  | nil =>
    intro l2 h
    cases l2 with
    | nil => rfl
    | cons d tl => simp [ctxListArr] at h
  | cons d tl ih =>
    intro l2 h
    cases l2 with
    | nil => simp [ctxListArr] at h
    | cons d2 tl2 =>
      simp only [ctxListArr, JArr.cons.injEq, JVal.obj.injEq] at h
      obtain ⟨hd, ht⟩ := h
      simp [ctxObj_inj d d2 hd, ih tl2 ht]

/-- Embedding one batch parameter as a Python value is injective. -/
theorem batchParamJVal_inj : ∀ a b : BatchParam, batchParamJVal a = batchParamJVal b → a = b := by
  intro a b h
  cases a <;> cases b <;> simp_all [batchParamJVal]

/-- Embedding the batch `parameters` list is injective. -/
theorem batchParamsArr_inj : ∀ l1 l2 : List BatchParam,
    batchParamsArr l1 = batchParamsArr l2 → l1 = l2 := by
  intro l1
  induction l1 with
  | nil =>
    intro l2 h
    cases l2 with
    | nil => rfl
    | cons p tl => simp [batchParamsArr] at h
  | cons p tl ih =>
    intro l2 h
    cases l2 with
    | nil => simp [batchParamsArr] at h
    | cons p2 tl2 =>
      simp only [batchParamsArr, JArr.cons.injEq] at h
      obtain ⟨hp, ht⟩ := h
      simp [batchParamJVal_inj p p2 hp, ih tl2 ht]

/-- Pydantic parsing never raises a Python `ValueError` with a custom
message: its failures are modelled as `pydanticError`. -/
theorem parseCalcResponse_ne_valueError (v : JVal) (msg : String) :
    parseCalcResponse v ≠ .error (.valueError msg) := by
  unfold parseCalcResponse
  split <;> first | (split <;> simp) | simp

/-- A payload that parses to a `CalculationResponse` is a non-empty dict,
hence truthy under `if cached_response:`. -/
theorem parseCalcResponse_ok_truthy (v : JVal) (r : CalculationResponse)
    (h : parseCalcResponse v = .ok r) : jTruthy v = true := by
  unfold parseCalcResponse at h
  split at h
  case _ fields =>
    cases fields with
    | nil => simp [JObj.get] at h
    | cons k w tl => simp [jTruthy, JObj.isEmpty]
  case _ => simp at h

/-- A payload that parses to a `CalculationResponse` is not `None`. -/
theorem parseCalcResponse_ok_ne_null (v : JVal) (r : CalculationResponse)
    (h : parseCalcResponse v = .ok r) : v ≠ .null := by
  intro hv
  subst hv
  simp [parseCalcResponse] at h

/-! Scenario lemmas: the three shapes a call can take (storage fault on
the read, truthy cache hit, cache miss), factored out so each claim's
theorem can be assembled from them. -/

theorem get_cached_fault (env : CacheEnv) (k : JVal) (msg : String)
    (h : env.getFault = some msg) : get_cached env k = .error msg := by
  unfold get_cached
  rw [h]

theorem get_cached_absent (env : CacheEnv) (k : JVal)
    (h : env.getFault = none) (hs : storeGet env.store k = none) :
    get_cached env k = .ok none := by
  unfold get_cached
  rw [h, hs]

theorem get_cached_null (env : CacheEnv) (k : JVal)
    (h : env.getFault = none) (hs : storeGet env.store k = some .null) :
    get_cached env k = .ok none := by
  unfold get_cached
  rw [h, hs]
  simp

theorem get_cached_found (env : CacheEnv) (k v : JVal)
    (h : env.getFault = none) (hs : storeGet env.store k = some v)
    (hv : v ≠ .null) : get_cached env k = .ok (some v) := by
  unfold get_cached
  rw [h, hs]
  simp [hv]

theorem calculate_guidelines_fault (p m : String) (c : Option CtxInput)
    (t : Option String) (a e : Option String) (env : CacheEnv)
    (remote : RemoteResult) (msg : String) (h : env.getFault = some msg) :
    calculate_guidelines p m c t a e env remote =
      ⟨.error (.storageError msg), [.cacheGet (calculateCacheKey p m c t)], env.store⟩ := by
  simp only [calculate_guidelines, get_cached_fault env _ msg h]

theorem calculate_guidelines_hit (p m : String) (c : Option CtxInput)
    (t : Option String) (a e : Option String) (env : CacheEnv)
    (remote : RemoteResult) (v : JVal) (h : env.getFault = none)
    (hs : storeGet env.store (calculateCacheKey p m c t) = some v)
    (hv : jTruthy v = true) :
    calculate_guidelines p m c t a e env remote =
      ⟨parseCalcResponse v, [.cacheGet (calculateCacheKey p m c t)], env.store⟩ := by
  have hnull : v ≠ .null := by
    intro hn
    rw [hn] at hv
    simp [jTruthy] at hv
  simp only [calculate_guidelines, get_cached_found env _ v h hs hnull]
  simp [truthyOpt, hv]

theorem calculate_guidelines_miss (p m : String) (c : Option CtxInput)
    (t : Option String) (a e : Option String) (env : CacheEnv)
    (remote : RemoteResult) (h : env.getFault = none)
    (hs : ∀ v, storeGet env.store (calculateCacheKey p m c t) = some v → jTruthy v = false) :
    calculate_guidelines p m c t a e env remote =
      missOutcome (GUIDELINELY_API_BASE ++ "/calculate")
        (calculateCacheKey p m c t) (calculateBody p m c t)
        (mkHeaders (get_api_key a e)) env.store remote := by
  simp only [calculate_guidelines]
  cases hst : storeGet env.store (calculateCacheKey p m c t) with
  | none =>
    rw [get_cached_absent env _ h hst]
    cases remote with
    | timeout msg => simp [truthyOpt, missOutcome]
    | reply status respBody =>
      by_cases h200 : status = 200
      · cases respBody with
        | none => simp [truthyOpt, missOutcome, h200]
        | some data => simp [truthyOpt, missOutcome, h200]
      · simp [truthyOpt, missOutcome, h200]
  | some v =>
    have hv := hs v hst
    by_cases hnull : v = .null
    · rw [hnull] at hst
      rw [get_cached_null env _ h hst]
      cases remote with
      | timeout msg => simp [truthyOpt, missOutcome]
      | reply status respBody =>
        by_cases h200 : status = 200
        · cases respBody with
          | none => simp [truthyOpt, missOutcome, h200]
          | some data => simp [truthyOpt, missOutcome, h200]
        · simp [truthyOpt, missOutcome, h200]
    · rw [get_cached_found env _ v h hst hnull]
      cases remote with
      | timeout msg => simp [truthyOpt, hv, missOutcome]
      | reply status respBody =>
        by_cases h200 : status = 200
        · cases respBody with
          | none => simp [truthyOpt, hv, missOutcome, h200]
          | some data => simp [truthyOpt, hv, missOutcome, h200]
        · simp [truthyOpt, hv, missOutcome, h200]

theorem calculate_batch_oversize (parameters : List BatchParam) (m : String)
    (c : Option CtxInput) (a e : Option String) (env : CacheEnv)
    (remote : RemoteResult) (h : parameters.length > 50) :
    calculate_batch parameters m c a e env remote =
      ⟨.error (.valueError "Maximum 50 parameters per batch request"), [], env.store⟩ := by
  unfold calculate_batch
  rw [if_pos h]

theorem calculate_batch_fault (parameters : List BatchParam) (m : String)
    (c : Option CtxInput) (a e : Option String) (env : CacheEnv)
    (remote : RemoteResult) (msg : String) (hlen : ¬ parameters.length > 50)
    (h : env.getFault = some msg) :
    calculate_batch parameters m c a e env remote =
      ⟨.error (.storageError msg), [.cacheGet (batchCacheKey parameters m c)], env.store⟩ := by
  simp only [calculate_batch]
  rw [if_neg hlen, get_cached_fault env _ msg h]

theorem calculate_batch_hit (parameters : List BatchParam) (m : String)
    (c : Option CtxInput) (a e : Option String) (env : CacheEnv)
    (remote : RemoteResult) (v : JVal) (hlen : ¬ parameters.length > 50)
    (h : env.getFault = none)
    (hs : storeGet env.store (batchCacheKey parameters m c) = some v)
    (hv : jTruthy v = true) :
    calculate_batch parameters m c a e env remote =
      ⟨parseCalcResponse v, [.cacheGet (batchCacheKey parameters m c)], env.store⟩ := by
  have hnull : v ≠ .null := by
    intro hn
    rw [hn] at hv
    simp [jTruthy] at hv
  simp only [calculate_batch]
  rw [if_neg hlen, get_cached_found env _ v h hs hnull]
  simp [truthyOpt, hv]

theorem calculate_batch_miss (parameters : List BatchParam) (m : String)
    (c : Option CtxInput) (a e : Option String) (env : CacheEnv)
    (remote : RemoteResult) (hlen : ¬ parameters.length > 50)
    (h : env.getFault = none)
    (hs : ∀ v, storeGet env.store (batchCacheKey parameters m c) = some v → jTruthy v = false) :
    calculate_batch parameters m c a e env remote =
      missOutcome (GUIDELINELY_API_BASE ++ "/calculate/batch")
        (batchCacheKey parameters m c) (batchBody parameters m c)
        (mkHeaders (get_api_key a e)) env.store remote := by
  simp only [calculate_batch]
  rw [if_neg hlen]
  cases hst : storeGet env.store (batchCacheKey parameters m c) with
  | none =>
    rw [get_cached_absent env _ h hst]
    cases remote with
    | timeout msg => simp [truthyOpt, missOutcome]
    | reply status respBody =>
      by_cases h200 : status = 200
      · cases respBody with
        | none => simp [truthyOpt, missOutcome, h200]
        | some data => simp [truthyOpt, missOutcome, h200]
      · simp [truthyOpt, missOutcome, h200]
  | some v =>
    have hv := hs v hst
    by_cases hnull : v = .null
    · rw [hnull] at hst
      rw [get_cached_null env _ h hst]
      cases remote with
      | timeout msg => simp [truthyOpt, missOutcome]
      | reply status respBody =>
        by_cases h200 : status = 200
        · cases respBody with
          | none => simp [truthyOpt, missOutcome, h200]
          | some data => simp [truthyOpt, missOutcome, h200]
        · simp [truthyOpt, missOutcome, h200]
    · rw [get_cached_found env _ v h hst hnull]
      cases remote with
      | timeout msg => simp [truthyOpt, hv, missOutcome]
      | reply status respBody =>
        by_cases h200 : status = 200
        · cases respBody with
          | none => simp [truthyOpt, hv, missOutcome, h200]
          | some data => simp [truthyOpt, hv, missOutcome, h200]
        · simp [truthyOpt, hv, missOutcome, h200]

/-! Facts about the shared miss path. -/

/-- Every miss path performs exactly one remote invocation. -/
theorem missOutcome_postCount (u : String) (ck b : JVal)
    (hd : List (String × String)) (st : CacheStore) (r : RemoteResult) :
    postCount (missOutcome u ck b hd st r).trace = 1 := by
  cases r with
  | timeout msg => simp [missOutcome, postCount, isHttpPost]
  | reply status respBody =>
    by_cases h200 : status = 200
    · cases respBody with
      | none => simp [missOutcome, postCount, isHttpPost, h200]
      | some data => simp [missOutcome, postCount, isHttpPost, h200, set_cached]
    · simp [missOutcome, postCount, isHttpPost, h200]

/-- The miss path never raises a Python `ValueError`. -/
theorem missOutcome_result_ne_valueError (u : String) (ck b : JVal)
    (hd : List (String × String)) (st : CacheStore) (r : RemoteResult) (msg : String) :
    (missOutcome u ck b hd st r).result ≠ .error (.valueError msg) := by
  cases r with
  | timeout m => simp [missOutcome]
  | reply status respBody =>
    by_cases h200 : status = 200
    · cases respBody with
      | none => simp [missOutcome, h200]
      | some data =>
        simp only [missOutcome, h200]
        simp
        exact parseCalcResponse_ne_valueError data msg
    · simp [missOutcome, h200, handle_error]

/-- The miss path's first effect is the cache lookup. -/
theorem missOutcome_trace_head (u : String) (ck b : JVal)
    (hd : List (String × String)) (st : CacheStore) (r : RemoteResult) :
    (missOutcome u ck b hd st r).trace.head? = some (.cacheGet ck) := by
  cases r with
  | timeout m => simp [missOutcome]
  | reply status respBody =>
    by_cases h200 : status = 200
    · cases respBody with
      | none => simp [missOutcome, h200]
      | some data => simp [missOutcome, h200]
    · simp [missOutcome, h200]

/-- Any cache write on the miss path uses the default 24-hour TTL. -/
theorem missOutcome_cacheSet_expire (u : String) (ck b k v : JVal)
    (hd : List (String × String)) (st : CacheStore) (r : RemoteResult) (ex : Nat)
    (h : Effect.cacheSet k v ex ∈ (missOutcome u ck b hd st r).trace) :
    ex = 24 * 3600 := by
  cases r with
  | timeout m => simp [missOutcome] at h
  | reply status respBody =>
    by_cases h200 : status = 200
    · cases respBody with
      | none => simp [missOutcome, h200] at h
      | some data =>
        simp [missOutcome, h200, set_cached] at h
        exact h.2.2
    · simp [missOutcome, h200] at h

/-- A successful miss-path outcome comes from a 200 reply whose payload
parses, and it caches exactly that payload. -/
theorem missOutcome_ok (u : String) (ck b : JVal) (hd : List (String × String))
    (st : CacheStore) (r : RemoteResult) (resp : CalculationResponse)
    (h : (missOutcome u ck b hd st r).result = .ok resp) :
    ∃ data, r = .reply 200 (some data) ∧ parseCalcResponse data = .ok resp ∧
      (missOutcome u ck b hd st r).store = storeSet st ck data := by
  cases r with
  | timeout m => simp [missOutcome] at h
  | reply status respBody =>
    by_cases h200 : status = 200
    · cases respBody with
      | none => simp [missOutcome, h200] at h
      | some data =>
        refine ⟨data, by rw [h200], ?_, ?_⟩
        · simpa [missOutcome, h200] using h
        · simp [missOutcome, h200]
    · simp [missOutcome, h200] at h

/-- Everything the cache storage can observe of the miss path — and the
returned result — is independent of the outgoing headers. -/
theorem missOutcome_headers_irrelevant (u : String) (ck b : JVal)
    (h1 h2 : List (String × String)) (st : CacheStore) (r : RemoteResult) :
    (missOutcome u ck b h1 st r).result = (missOutcome u ck b h2 st r).result ∧
    cacheEffects (missOutcome u ck b h1 st r).trace =
      cacheEffects (missOutcome u ck b h2 st r).trace ∧
    (missOutcome u ck b h1 st r).store = (missOutcome u ck b h2 st r).store := by
  cases r with
  | timeout m => simp [missOutcome, cacheEffects, isHttpPost]
  | reply status respBody =>
    by_cases h200 : status = 200
    · cases respBody with
      | none => simp [missOutcome, h200, cacheEffects, isHttpPost]
      | some data => simp [missOutcome, h200, cacheEffects, isHttpPost, set_cached]
    · simp [missOutcome, h200, cacheEffects, isHttpPost]

/-- A non-success reply on the miss path: the API error is raised with
the extracted message and the reply's status code, and the store is
untouched. -/
theorem missOutcome_error_reply (u : String) (ck b : JVal)
    (hd : List (String × String)) (st : CacheStore) (status : Nat)
    (respBody : Option JVal) (h : status ≠ 200) :
    missOutcome u ck b hd st (.reply status respBody) =
      ⟨.error (.apiError (extractErrorMessage respBody) status),
       [.cacheGet ck, .httpPost u b hd], st⟩ := by
  simp [missOutcome, h, handle_error]

/-- Reading back the key just written returns the written value. -/
theorem storeGet_storeSet_self (s : CacheStore) (k v : JVal) :
    storeGet (storeSet s k v) k = some v := by
  simp [storeGet, storeSet]

/-- With at most 50 parameters, no branch of `calculate_batch` raises a
Python `ValueError`. -/
theorem calculate_batch_result_not_valueError (parameters : List BatchParam)
    (m : String) (c : Option CtxInput) (a e : Option String) (env : CacheEnv)
    (remote : RemoteResult) (hlen : ¬ parameters.length > 50) (msg : String) :
    (calculate_batch parameters m c a e env remote).result ≠ .error (.valueError msg) := by
  cases hf : env.getFault with
  | some fmsg =>
    rw [calculate_batch_fault parameters m c a e env remote fmsg hlen hf]
    simp
  | none =>
    cases hst : storeGet env.store (batchCacheKey parameters m c) with
    | some v =>
      by_cases hv : jTruthy v = true
      · rw [calculate_batch_hit parameters m c a e env remote v hlen hf hst hv]
        exact parseCalcResponse_ne_valueError v msg
      · have hvf : jTruthy v = false := by simpa using hv
        rw [calculate_batch_miss parameters m c a e env remote hlen hf
          (fun w hw => Option.some.inj (hst.symm.trans hw) ▸ hvf)]
        exact missOutcome_result_ne_valueError _ _ _ _ _ _ msg
    | none =>
      rw [calculate_batch_miss parameters m c a e env remote hlen hf
        (fun w hw => Option.noConfusion (hst.symm.trans hw))]
      exact missOutcome_result_ne_valueError _ _ _ _ _ _ msg

/-- C2: a `calculate_batch` call with more than 50 parameters fails with
the `ValueError` raised synchronously before any cache lookup or network
activity — the effect trace is empty and the store untouched — while a
call with exactly 50 parameters never raises that validation error. -/
theorem C2_batch_size_limit (parameters : List BatchParam) (m : String)
    (c : Option CtxInput) (a e : Option String) (env : CacheEnv)
    (remote : RemoteResult) :
    (parameters.length > 50 →
      calculate_batch parameters m c a e env remote =
        ⟨.error (.valueError "Maximum 50 parameters per batch request"), [], env.store⟩) ∧
    (parameters.length = 50 →
      ∀ msg, (calculate_batch parameters m c a e env remote).result ≠
        .error (.valueError msg)) := by
  constructor
  · intro h
    exact calculate_batch_oversize parameters m c a e env remote h
  · intro h msg
    exact calculate_batch_result_not_valueError parameters m c a e env remote (by omega) msg

/-- C2 witness: 51 parameters fail with the validation error and an
empty trace; 50 parameters do not raise it. -/
theorem C2_batch_size_limit_witness :
    (calculate_batch (List.replicate 51 (BatchParam.pstr "Aluminum")) "surface_water"
        none none none emptyEnv (.reply 200 (some goodPayload)) =
      ⟨.error (.valueError "Maximum 50 parameters per batch request"), [], []⟩) ∧
    (calculate_batch (List.replicate 50 (BatchParam.pstr "Aluminum")) "surface_water"
        none none none emptyEnv (.reply 200 (some goodPayload))).result ≠
      .error (.valueError "Maximum 50 parameters per batch request") := by
  constructor
  · exact (C2_batch_size_limit _ _ _ _ _ _ _).1 (by decide)
  · exact (C2_batch_size_limit _ _ _ _ _ _ _).2 (by decide) _

/-- C3 counterexample: `calculate_batch` called with an empty parameters
list and empty media does not fail with a validation error; it performs
the cache lookup and the remote POST (and succeeds on a 200 reply). -/
theorem C3_counterexample :
    (calculate_batch [] "" none none none emptyEnv
        (.reply 200 (some goodPayload))).result = .ok goodResponse ∧
    (calculate_batch [] "" none none none emptyEnv
        (.reply 200 (some goodPayload))).trace.head? =
      some (.cacheGet (batchCacheKey [] "" none)) ∧
    postCount (calculate_batch [] "" none none none emptyEnv
        (.reply 200 (some goodPayload))).trace = 1 := by
  decide

/-- C3 (amended): `calculate_batch` performs no client-side emptiness
validation: for every media string (the empty one included) and every
parameters list of length at most 50 (the empty one included), no
`ValueError` is raised and the call's first effect is already the cache
lookup — emptiness is left to the remote service. -/
theorem C3_no_emptiness_validation (parameters : List BatchParam) (m : String)
    (c : Option CtxInput) (a e : Option String) (env : CacheEnv)
    (remote : RemoteResult) (hlen : parameters.length ≤ 50) (msg : String) :
    (calculate_batch parameters m c a e env remote).result ≠ .error (.valueError msg) ∧
    (calculate_batch parameters m c a e env remote).trace.head? =
      some (.cacheGet (batchCacheKey parameters m c)) := by
  have hlen2 : ¬ parameters.length > 50 := by omega
  refine ⟨calculate_batch_result_not_valueError parameters m c a e env remote hlen2 msg, ?_⟩
  cases hf : env.getFault with
  | some fmsg =>
    rw [calculate_batch_fault parameters m c a e env remote fmsg hlen2 hf]
    rfl
  | none =>
    cases hst : storeGet env.store (batchCacheKey parameters m c) with
    | some v =>
      by_cases hv : jTruthy v = true
      · rw [calculate_batch_hit parameters m c a e env remote v hlen2 hf hst hv]
        rfl
      · have hvf : jTruthy v = false := by simpa using hv
        rw [calculate_batch_miss parameters m c a e env remote hlen2 hf
          (fun w hw => Option.some.inj (hst.symm.trans hw) ▸ hvf)]
        exact missOutcome_trace_head _ _ _ _ _ _
    | none =>
      rw [calculate_batch_miss parameters m c a e env remote hlen2 hf
        (fun w hw => Option.noConfusion (hst.symm.trans hw))]
      exact missOutcome_trace_head _ _ _ _ _ _

/-- C3 amended witness: the empty request at concrete inputs. -/
theorem C3_no_emptiness_validation_witness :
    (calculate_batch [] "" none none none emptyEnv
        (.reply 200 (some goodPayload))).result ≠
      .error (.valueError "Maximum 50 parameters per batch request") ∧
    (calculate_batch [] "" none none none emptyEnv
        (.reply 200 (some goodPayload))).trace.head? =
      some (.cacheGet (batchCacheKey [] "" none)) :=
  C3_no_emptiness_validation [] "" none none none emptyEnv
    (.reply 200 (some goodPayload)) (by decide) "Maximum 50 parameters per batch request"

/-- C7 counterexample: when the cache read raises a storage error, the
call does not proceed to the remote service — it aborts with the storage
error and performs no POST, even though the remote would have answered. -/
theorem C7_counterexample :
    (calculate_guidelines "Aluminum" "surface_water" none none none none
        ⟨[], some "disk I/O error"⟩ (.reply 200 (some goodPayload))).result =
      .error (.storageError "disk I/O error") ∧
    postCount (calculate_guidelines "Aluminum" "surface_water" none none none none
        ⟨[], some "disk I/O error"⟩ (.reply 200 (some goodPayload))).trace = 0 := by
  decide

/-- C7 (amended): a storage error on the cache read is not treated as a
miss: `get_cached` has no handler, so both `calculate_guidelines` and
`calculate_batch` propagate the storage error and abort the operation
with no remote call. -/
theorem C7_storage_error_propagates (p m : String) (c : Option CtxInput)
    (t : Option String) (ps : List BatchParam) (a e : Option String)
    (env : CacheEnv) (remote : RemoteResult) (msg : String)
    (h : env.getFault = some msg) :
    (calculate_guidelines p m c t a e env remote).result = .error (.storageError msg) ∧
    postCount (calculate_guidelines p m c t a e env remote).trace = 0 ∧
    (ps.length ≤ 50 →
      (calculate_batch ps m c a e env remote).result = .error (.storageError msg) ∧
      postCount (calculate_batch ps m c a e env remote).trace = 0) := by
  refine ⟨?_, ?_, fun hlen => ⟨?_, ?_⟩⟩
  · rw [calculate_guidelines_fault p m c t a e env remote msg h]
  · rw [calculate_guidelines_fault p m c t a e env remote msg h]
    rfl
  · rw [calculate_batch_fault ps m c a e env remote msg (by omega) h]
  · rw [calculate_batch_fault ps m c a e env remote msg (by omega) h]
    rfl

/-- C7 amended witness: a concrete faulting read. -/
theorem C7_storage_error_propagates_witness :
    (calculate_guidelines "Aluminum" "surface_water" none none none none
        ⟨[], some "permission denied"⟩ (.timeout "t")).result =
      .error (.storageError "permission denied") ∧
    postCount (calculate_guidelines "Aluminum" "surface_water" none none none none
        ⟨[], some "permission denied"⟩ (.timeout "t")).trace = 0 ∧
    (([] : List BatchParam).length ≤ 50 →
      (calculate_batch [] "surface_water" none none none
          ⟨[], some "permission denied"⟩ (.timeout "t")).result =
        .error (.storageError "permission denied") ∧
      postCount (calculate_batch [] "surface_water" none none none
          ⟨[], some "permission denied"⟩ (.timeout "t")).trace = 0) :=
  C7_storage_error_propagates "Aluminum" "surface_water" none none [] none none
    ⟨[], some "permission denied"⟩ (.timeout "t") "permission denied" (by decide)

/-- C9: the cache write's default TTL is a fixed 24 hours: `set_cached`
without an explicit ttl stores with `expire = 24 * 3600`, an explicit ttl
is used verbatim, and every cache write either calculate function ever
performs carries the 24-hour default. -/
theorem C9_default_ttl :
    (∀ k v, set_cached k v = .cacheSet k v (24 * 3600)) ∧
    (∀ k v ttl, set_cached k v ttl = .cacheSet k v ttl) ∧
    (∀ p m c t a e env remote k v ex,
      Effect.cacheSet k v ex ∈ (calculate_guidelines p m c t a e env remote).trace →
      ex = 24 * 3600) ∧
    (∀ ps m c a e env remote k v ex,
      Effect.cacheSet k v ex ∈ (calculate_batch ps m c a e env remote).trace →
      ex = 24 * 3600) := by
  refine ⟨fun k v => rfl, fun k v ttl => rfl, ?_, ?_⟩
  · intro p m c t a e env remote k v ex hmem
    cases hf : env.getFault with
    | some fmsg =>
      rw [calculate_guidelines_fault p m c t a e env remote fmsg hf] at hmem
      simp at hmem
    | none =>
      cases hst : storeGet env.store (calculateCacheKey p m c t) with
      | some w =>
        by_cases hw : jTruthy w = true
        · rw [calculate_guidelines_hit p m c t a e env remote w hf hst hw] at hmem
          simp at hmem
        · have hwf : jTruthy w = false := by simpa using hw
          rw [calculate_guidelines_miss p m c t a e env remote hf
            (fun x hx => Option.some.inj (hst.symm.trans hx) ▸ hwf)] at hmem
          exact missOutcome_cacheSet_expire _ _ _ _ _ _ _ _ _ hmem
      | none =>
        rw [calculate_guidelines_miss p m c t a e env remote hf
          (fun x hx => Option.noConfusion (hst.symm.trans hx))] at hmem
        exact missOutcome_cacheSet_expire _ _ _ _ _ _ _ _ _ hmem
  · intro ps m c a e env remote k v ex hmem
    by_cases hlen : ps.length > 50
    · rw [calculate_batch_oversize ps m c a e env remote hlen] at hmem
      simp at hmem
    · cases hf : env.getFault with
      | some fmsg =>
        rw [calculate_batch_fault ps m c a e env remote fmsg hlen hf] at hmem
        simp at hmem
      | none =>
        cases hst : storeGet env.store (batchCacheKey ps m c) with
        | some w =>
          by_cases hw : jTruthy w = true
          · rw [calculate_batch_hit ps m c a e env remote w hlen hf hst hw] at hmem
            simp at hmem
          · have hwf : jTruthy w = false := by simpa using hw
            rw [calculate_batch_miss ps m c a e env remote hlen hf
              (fun x hx => Option.some.inj (hst.symm.trans hx) ▸ hwf)] at hmem
            exact missOutcome_cacheSet_expire _ _ _ _ _ _ _ _ _ hmem
        | none =>
          rw [calculate_batch_miss ps m c a e env remote hlen hf
            (fun x hx => Option.noConfusion (hst.symm.trans hx))] at hmem
          exact missOutcome_cacheSet_expire _ _ _ _ _ _ _ _ _ hmem

/-- C9 witness: the cache write of a concrete successful call carries
`expire = 24 * 3600`. -/
theorem C9_default_ttl_witness :
    Effect.cacheSet (calculateCacheKey "Aluminum" "surface_water" none none)
        goodPayload (24 * 3600) ∈
      (calculate_guidelines "Aluminum" "surface_water" none none none none emptyEnv
        (.reply 200 (some goodPayload))).trace ∧
    (24 * 3600 : Nat) = 24 * 3600 := by
  refine ⟨by decide, ?_⟩
  exact C9_default_ttl.2.2.1 "Aluminum" "surface_water" none none none none emptyEnv
    (.reply 200 (some goodPayload)) (calculateCacheKey "Aluminum" "surface_water" none none)
    goodPayload (24 * 3600) (by decide)

/-- C10: a falsy cached payload — an empty dict, or a stored `None` — is
treated as a miss: even though the store contains an entry for the key,
both calculate functions still perform exactly one remote POST. -/
theorem C10_falsy_payload_is_miss :
    (∀ p m c t a e store v remote,
      storeGet store (calculateCacheKey p m c t) = some v → jTruthy v = false →
      postCount (calculate_guidelines p m c t a e ⟨store, none⟩ remote).trace = 1) ∧
    (∀ ps m c a e store v remote, ps.length ≤ 50 →
      storeGet store (batchCacheKey ps m c) = some v → jTruthy v = false →
      postCount (calculate_batch ps m c a e ⟨store, none⟩ remote).trace = 1) := by
  constructor
  · intro p m c t a e store v remote hst hv
    rw [calculate_guidelines_miss p m c t a e ⟨store, none⟩ remote rfl
      (fun w hw => Option.some.inj (hst.symm.trans hw) ▸ hv)]
    exact missOutcome_postCount _ _ _ _ _ _
  · intro ps m c a e store v remote hlen hst hv
    rw [calculate_batch_miss ps m c a e ⟨store, none⟩ remote (by omega) rfl
      (fun w hw => Option.some.inj (hst.symm.trans hw) ▸ hv)]
    exact missOutcome_postCount _ _ _ _ _ _

/-- C10 witness: an empty-dict payload stored under the exact request key
still leads to a remote POST. -/
theorem C10_falsy_payload_is_miss_witness :
    storeGet [(calculateCacheKey "Aluminum" "surface_water" none none, JVal.obj .nil)]
        (calculateCacheKey "Aluminum" "surface_water" none none) = some (.obj .nil) ∧
    jTruthy (.obj .nil) = false ∧
    postCount (calculate_guidelines "Aluminum" "surface_water" none none none none
        ⟨[(calculateCacheKey "Aluminum" "surface_water" none none, .obj .nil)], none⟩
        (.reply 200 (some goodPayload))).trace = 1 :=
  ⟨by decide, by decide,
    C10_falsy_payload_is_miss.1 "Aluminum" "surface_water" none none none none
      [(calculateCacheKey "Aluminum" "surface_water" none none, .obj .nil)]
      (.obj .nil) (.reply 200 (some goodPayload)) (by decide) (by decide)⟩

/-- C1 counterexample: two `calculate_guidelines` requests that are
semantically identical except for the key-insertion order inside the
Context mapping (the item sets are permutations of each other) perform
their cache lookups under different cache keys, i.e. they address
different cache entries. -/
theorem C1_counterexample :
    List.Perm ctxPHFirst ctxHardnessFirst ∧
    (calculate_guidelines "Aluminum" "surface_water" (some (.single ctxPHFirst)) none
        none none emptyEnv (.reply 200 (some goodPayload))).trace.head? ≠
    (calculate_guidelines "Aluminum" "surface_water" (some (.single ctxHardnessFirst)) none
        none none emptyEnv (.reply 200 (some goodPayload))).trace.head? := by
  constructor
  · decide
  · decide

/-- C1 (amended): the Context mapping enters the cache key with its
key-insertion order preserved — no sorting or canonicalization happens —
so requests identical except for distinct insertion orders inside a
Context compute different cache keys (for both endpoints) and therefore
address different cache entries; only identically-ordered requests share
an entry. -/
theorem C1_context_order_in_key :
    (∀ p m t (c1 c2 : Ctx), c1 ≠ c2 →
      calculateCacheKey p m (some (.single c1)) t ≠
        calculateCacheKey p m (some (.single c2)) t) ∧
    (∀ ps m (c1 c2 : Ctx), c1 ≠ c2 →
      batchCacheKey ps m (some (.single c1)) ≠ batchCacheKey ps m (some (.single c2))) := by
  constructor
  · intro p m t c1 c2 hne heq
    simp only [calculateCacheKey, ctxJVal, JVal.obj.injEq, JObj.cons.injEq,
      JVal.str.injEq, true_and, and_true] at heq
    exact hne (ctxObj_inj c1 c2 (by tauto))
  · intro ps m c1 c2 hne heq
    simp only [batchCacheKey, ctxJVal, JVal.obj.injEq, JObj.cons.injEq,
      JVal.str.injEq, JVal.arr.injEq, true_and, and_true] at heq
    exact hne (ctxObj_inj c1 c2 (by tauto))

/-- C1 amended witness: the concrete permuted contexts give different
keys. -/
theorem C1_context_order_in_key_witness :
    ctxPHFirst ≠ ctxHardnessFirst ∧
    calculateCacheKey "Aluminum" "surface_water" (some (.single ctxPHFirst)) none ≠
      calculateCacheKey "Aluminum" "surface_water" (some (.single ctxHardnessFirst)) none :=
  ⟨by decide, C1_context_order_in_key.1 "Aluminum" "surface_water" none
    ctxPHFirst ctxHardnessFirst (by decide)⟩

/-- C8: the order of the `parameters` list and of the `contexts` list is
semantically meaningful and is part of the cache key: lists holding the
same elements in a different order (permuted but unequal) always compute
different cache keys. -/
theorem C8_sequence_order_in_key :
    (∀ (ps1 ps2 : List BatchParam) m c, List.Perm ps1 ps2 → ps1 ≠ ps2 →
      batchCacheKey ps1 m c ≠ batchCacheKey ps2 m c) ∧
    (∀ p m t (l1 l2 : List Ctx), List.Perm l1 l2 → l1 ≠ l2 →
      calculateCacheKey p m (some (.many l1)) t ≠
        calculateCacheKey p m (some (.many l2)) t) ∧
    (∀ (ps : List BatchParam) m (l1 l2 : List Ctx), List.Perm l1 l2 → l1 ≠ l2 →
      batchCacheKey ps m (some (.many l1)) ≠ batchCacheKey ps m (some (.many l2))) := by
  refine ⟨?_, ?_, ?_⟩
  · intro ps1 ps2 m c _ hne heq
    simp only [batchCacheKey, JVal.obj.injEq, JObj.cons.injEq, JVal.str.injEq,
      JVal.arr.injEq, true_and, and_true] at heq
    exact hne (batchParamsArr_inj ps1 ps2 (by tauto))
  · intro p m t l1 l2 _ hne heq
    simp only [calculateCacheKey, ctxJVal, JVal.obj.injEq, JObj.cons.injEq,
      JVal.str.injEq, JVal.arr.injEq, true_and, and_true] at heq
    exact hne (ctxListArr_inj l1 l2 (by tauto))
  · intro ps m l1 l2 _ hne heq
    simp only [batchCacheKey, ctxJVal, JVal.obj.injEq, JObj.cons.injEq,
      JVal.str.injEq, JVal.arr.injEq, true_and, and_true] at heq
    exact hne (ctxListArr_inj l1 l2 (by tauto))

/-- C8 witness: concrete permuted parameter lists and context lists give
different keys. -/
theorem C8_sequence_order_in_key_witness :
    (List.Perm [BatchParam.pstr "Aluminum", BatchParam.pstr "Copper"]
        [BatchParam.pstr "Copper", BatchParam.pstr "Aluminum"] ∧
      batchCacheKey [BatchParam.pstr "Aluminum", BatchParam.pstr "Copper"] "surface_water" none ≠
        batchCacheKey [BatchParam.pstr "Copper", BatchParam.pstr "Aluminum"] "surface_water" none) ∧
    (List.Perm [[("pH", "7.0 1")], [("pH", "8.0 1")]] [[("pH", "8.0 1")], [("pH", "7.0 1")]] ∧
      calculateCacheKey "Aluminum" "surface_water"
          (some (.many [[("pH", "7.0 1")], [("pH", "8.0 1")]])) none ≠
        calculateCacheKey "Aluminum" "surface_water"
          (some (.many [[("pH", "8.0 1")], [("pH", "7.0 1")]])) none) :=
  ⟨⟨by decide,
    C8_sequence_order_in_key.1 [BatchParam.pstr "Aluminum", BatchParam.pstr "Copper"]
      [BatchParam.pstr "Copper", BatchParam.pstr "Aluminum"] "surface_water" none
      (by decide) (by decide)⟩,
   ⟨by decide,
    C8_sequence_order_in_key.2.1 "Aluminum" "surface_water" none
      [[("pH", "7.0 1")], [("pH", "8.0 1")]] [[("pH", "8.0 1")], [("pH", "7.0 1")]]
      (by decide) (by decide)⟩⟩

/-- C5: the cache key never includes any credential: two runs that differ
only in the `api_key` argument and/or the ambient API-key setting return
the same result, produce identical cache-facing effects (the same cache
keys and stored values, for both `get` and `set`) and leave the store
identical, for both calculate functions — so no secret is derivable from
any stored key or value. -/
theorem C5_no_credential_in_cache_key (p m : String) (c : Option CtxInput)
    (t : Option String) (ps : List BatchParam) (a1 e1 a2 e2 : Option String)
    (env : CacheEnv) (remote : RemoteResult) :
    ((calculate_guidelines p m c t a1 e1 env remote).result =
        (calculate_guidelines p m c t a2 e2 env remote).result ∧
      cacheEffects (calculate_guidelines p m c t a1 e1 env remote).trace =
        cacheEffects (calculate_guidelines p m c t a2 e2 env remote).trace ∧
      (calculate_guidelines p m c t a1 e1 env remote).store =
        (calculate_guidelines p m c t a2 e2 env remote).store) ∧
    ((calculate_batch ps m c a1 e1 env remote).result =
        (calculate_batch ps m c a2 e2 env remote).result ∧
      cacheEffects (calculate_batch ps m c a1 e1 env remote).trace =
        cacheEffects (calculate_batch ps m c a2 e2 env remote).trace ∧
      (calculate_batch ps m c a1 e1 env remote).store =
        (calculate_batch ps m c a2 e2 env remote).store) := by
  constructor
  · cases hf : env.getFault with
    | some fmsg =>
      rw [calculate_guidelines_fault p m c t a1 e1 env remote fmsg hf,
        calculate_guidelines_fault p m c t a2 e2 env remote fmsg hf]
      exact ⟨rfl, rfl, rfl⟩
    | none =>
      cases hst : storeGet env.store (calculateCacheKey p m c t) with
      | some v =>
        by_cases hv : jTruthy v = true
        · rw [calculate_guidelines_hit p m c t a1 e1 env remote v hf hst hv,
            calculate_guidelines_hit p m c t a2 e2 env remote v hf hst hv]
          exact ⟨rfl, rfl, rfl⟩
        · have hvf : jTruthy v = false := by simpa using hv
          rw [calculate_guidelines_miss p m c t a1 e1 env remote hf
              (fun w hw => Option.some.inj (hst.symm.trans hw) ▸ hvf),
            calculate_guidelines_miss p m c t a2 e2 env remote hf
              (fun w hw => Option.some.inj (hst.symm.trans hw) ▸ hvf)]
          exact missOutcome_headers_irrelevant _ _ _ _ _ _ _
      | none =>
        rw [calculate_guidelines_miss p m c t a1 e1 env remote hf
            (fun w hw => Option.noConfusion (hst.symm.trans hw)),
          calculate_guidelines_miss p m c t a2 e2 env remote hf
            (fun w hw => Option.noConfusion (hst.symm.trans hw))]
        exact missOutcome_headers_irrelevant _ _ _ _ _ _ _
  · by_cases hlen : ps.length > 50
    · rw [calculate_batch_oversize ps m c a1 e1 env remote hlen,
        calculate_batch_oversize ps m c a2 e2 env remote hlen]
      exact ⟨rfl, rfl, rfl⟩
    · cases hf : env.getFault with
      | some fmsg =>
        rw [calculate_batch_fault ps m c a1 e1 env remote fmsg hlen hf,
          calculate_batch_fault ps m c a2 e2 env remote fmsg hlen hf]
        exact ⟨rfl, rfl, rfl⟩
      | none =>
        cases hst : storeGet env.store (batchCacheKey ps m c) with
        | some v =>
          by_cases hv : jTruthy v = true
          · rw [calculate_batch_hit ps m c a1 e1 env remote v hlen hf hst hv,
              calculate_batch_hit ps m c a2 e2 env remote v hlen hf hst hv]
            exact ⟨rfl, rfl, rfl⟩
          · have hvf : jTruthy v = false := by simpa using hv
            rw [calculate_batch_miss ps m c a1 e1 env remote hlen hf
                (fun w hw => Option.some.inj (hst.symm.trans hw) ▸ hvf),
              calculate_batch_miss ps m c a2 e2 env remote hlen hf
                (fun w hw => Option.some.inj (hst.symm.trans hw) ▸ hvf)]
            exact missOutcome_headers_irrelevant _ _ _ _ _ _ _
        | none =>
          rw [calculate_batch_miss ps m c a1 e1 env remote hlen hf
              (fun w hw => Option.noConfusion (hst.symm.trans hw)),
            calculate_batch_miss ps m c a2 e2 env remote hlen hf
              (fun w hw => Option.noConfusion (hst.symm.trans hw))]
          exact missOutcome_headers_irrelevant _ _ _ _ _ _ _

/-- C6: on a cache miss, a non-success reply from the remote service
surfaces as a `GuidelinelyAPIError` carrying the reply's exact status
code and the body's detail message; no cache entry is written (no
`cacheSet` effect, store unchanged), so a subsequent identical call
invokes the remote service again. -/
theorem C6_remote_fault_propagates (p m : String) (c : Option CtxInput)
    (t : Option String) (a e : Option String) (env : CacheEnv)
    (status : Nat) (fields : JObj) (dmsg : String) (remote2 : RemoteResult)
    (hfault : env.getFault = none)
    (hmiss : storeGet env.store (calculateCacheKey p m c t) = none)
    (hstatus : status ≠ 200)
    (hdetail : fields.get "detail" = some (.str dmsg)) (hmsg : dmsg ≠ "") :
    (calculate_guidelines p m c t a e env (.reply status (some (.obj fields)))).result =
      .error (.apiError (.str dmsg) status) ∧
    (calculate_guidelines p m c t a e env
      (.reply status (some (.obj fields)))).trace.filter isCacheSet = [] ∧
    (calculate_guidelines p m c t a e env (.reply status (some (.obj fields)))).store =
      env.store ∧
    postCount (calculate_guidelines p m c t a e
      ⟨(calculate_guidelines p m c t a e env (.reply status (some (.obj fields)))).store,
        none⟩ remote2).trace = 1 := by
  have hs : ∀ w, storeGet env.store (calculateCacheKey p m c t) = some w →
      jTruthy w = false :=
    fun w hw => Option.noConfusion (hmiss.symm.trans hw)
  have hrw := calculate_guidelines_miss p m c t a e env
    (.reply status (some (.obj fields))) hfault hs
  rw [missOutcome_error_reply _ _ _ _ _ _ _ hstatus] at hrw
  have hext : extractErrorMessage (some (.obj fields)) = .str dmsg := by
    simp [extractErrorMessage, hdetail, jOr, jTruthy, hmsg]
  rw [hext] at hrw
  have hstore : (calculate_guidelines p m c t a e env
      (.reply status (some (.obj fields)))).store = env.store := by
    rw [hrw]
  refine ⟨by rw [hrw], by rw [hrw]; simp [isCacheSet], hstore, ?_⟩
  rw [hstore]
  rw [calculate_guidelines_miss p m c t a e ⟨env.store, none⟩ remote2 rfl
    (fun w hw => Option.noConfusion (hmiss.symm.trans hw))]
  exact missOutcome_postCount _ _ _ _ _ _

/-- C6 witness: a 500 reply with a detail message at concrete inputs. -/
theorem C6_remote_fault_propagates_witness :
    (calculate_guidelines "Aluminum" "surface_water" none none none none emptyEnv
        (.reply 500 (some (.obj (.cons "detail" (.str "Internal Server Error") .nil))))).result =
      .error (.apiError (.str "Internal Server Error") 500) ∧
    (calculate_guidelines "Aluminum" "surface_water" none none none none emptyEnv
        (.reply 500 (some (.obj (.cons "detail" (.str "Internal Server Error") .nil))))).trace.filter
        isCacheSet = [] ∧
    (calculate_guidelines "Aluminum" "surface_water" none none none none emptyEnv
        (.reply 500 (some (.obj (.cons "detail" (.str "Internal Server Error") .nil))))).store =
      emptyEnv.store ∧
    postCount (calculate_guidelines "Aluminum" "surface_water" none none none none
      ⟨(calculate_guidelines "Aluminum" "surface_water" none none none none emptyEnv
          (.reply 500 (some (.obj (.cons "detail" (.str "Internal Server Error") .nil))))).store,
        none⟩ (.reply 500 (some (.obj (.cons "detail" (.str "Internal Server Error") .nil))))).trace = 1 :=
  C6_remote_fault_propagates "Aluminum" "surface_water" none none none none emptyEnv
    500 (.cons "detail" (.str "Internal Server Error") .nil) "Internal Server Error"
    (.reply 500 (some (.obj (.cons "detail" (.str "Internal Server Error") .nil))))
    rfl (by decide) (by decide) (by decide) (by decide)

/-- C4: calling `calculate_guidelines` twice in immediate succession with
identical input (and no storage fault): whenever the first call returns a
response, the second call returns the bit-identical response — built from
the payload the cache now holds — and performs no HTTP request. -/
theorem C4_second_call_is_cache_hit (p m : String) (c : Option CtxInput)
    (t : Option String) (a e : Option String) (env : CacheEnv)
    (remote1 remote2 : RemoteResult) (resp : CalculationResponse)
    (hfault : env.getFault = none)
    (h1 : (calculate_guidelines p m c t a e env remote1).result = .ok resp) :
    (calculate_guidelines p m c t a e
        ⟨(calculate_guidelines p m c t a e env remote1).store, none⟩ remote2).result =
      .ok resp ∧
    postCount (calculate_guidelines p m c t a e
        ⟨(calculate_guidelines p m c t a e env remote1).store, none⟩ remote2).trace = 0 := by
  cases hst : storeGet env.store (calculateCacheKey p m c t) with
  | some v =>
    by_cases hv : jTruthy v = true
    · have hrw := calculate_guidelines_hit p m c t a e env remote1 v hfault hst hv
      rw [hrw] at h1
      have hstore : (calculate_guidelines p m c t a e env remote1).store = env.store := by
        rw [hrw]
      rw [hstore]
      rw [calculate_guidelines_hit p m c t a e (⟨env.store, none⟩ : CacheEnv) remote2 v
        rfl hst hv]
      exact ⟨h1, rfl⟩
    · have hvf : jTruthy v = false := by simpa using hv
      have hrw := calculate_guidelines_miss p m c t a e env remote1 hfault
        (fun w hw => Option.some.inj (hst.symm.trans hw) ▸ hvf)
      rw [hrw] at h1
      obtain ⟨data, _, hparse, hmstore⟩ := missOutcome_ok _ _ _ _ _ _ _ h1
      have hstore : (calculate_guidelines p m c t a e env remote1).store =
          storeSet env.store (calculateCacheKey p m c t) data := by
        rw [hrw]
        exact hmstore
      rw [hstore]
      rw [calculate_guidelines_hit p m c t a e
        (⟨storeSet env.store (calculateCacheKey p m c t) data, none⟩ : CacheEnv) remote2 data
        rfl (storeGet_storeSet_self _ _ _) (parseCalcResponse_ok_truthy data resp hparse)]
      exact ⟨hparse, rfl⟩
  | none =>
    have hrw := calculate_guidelines_miss p m c t a e env remote1 hfault
      (fun w hw => Option.noConfusion (hst.symm.trans hw))
    rw [hrw] at h1
    obtain ⟨data, _, hparse, hmstore⟩ := missOutcome_ok _ _ _ _ _ _ _ h1
    have hstore : (calculate_guidelines p m c t a e env remote1).store =
        storeSet env.store (calculateCacheKey p m c t) data := by
      rw [hrw]
      exact hmstore
    rw [hstore]
    rw [calculate_guidelines_hit p m c t a e
      (⟨storeSet env.store (calculateCacheKey p m c t) data, none⟩ : CacheEnv) remote2 data
      rfl (storeGet_storeSet_self _ _ _) (parseCalcResponse_ok_truthy data resp hparse)]
    exact ⟨hparse, rfl⟩

/-- C4 witness: a concrete first call (miss, 200 reply) followed by a
second call whose remote oracle would time out — the cached payload is
returned and no POST happens. -/
theorem C4_second_call_is_cache_hit_witness :
    (calculate_guidelines "Aluminum" "surface_water" none none none none
        ⟨(calculate_guidelines "Aluminum" "surface_water" none none none none emptyEnv
            (.reply 200 (some goodPayload))).store, none⟩ (.timeout "never reached")).result =
      .ok goodResponse ∧
    postCount (calculate_guidelines "Aluminum" "surface_water" none none none none
        ⟨(calculate_guidelines "Aluminum" "surface_water" none none none none emptyEnv
            (.reply 200 (some goodPayload))).store, none⟩ (.timeout "never reached")).trace = 0 :=
  C4_second_call_is_cache_hit "Aluminum" "surface_water" none none none none emptyEnv
    (.reply 200 (some goodPayload)) (.timeout "never reached") goodResponse rfl (by decide)
